import Mathlib

/-
Verification of the bugwarrior service-adapter normalization layer.

The Python sources (bugwarrior/services/trac.py, logseq.py, github.py,
bitbucket.py and bugwarrior/command.py) are shallowly embedded below:
Python strings become `List Char`, dictionaries become association lists or
structures with `Option` fields for keys that may be absent, and code that can
raise becomes `Except PyErr`.  Functions from the `bugwarrior.services` base
module that are outside the provided excerpt are reconstructed from the
specification and marked `Modelled from the spec:` in their doc comments.
-/

deriving instance DecidableEq for Except

namespace Bugwarrior

/-- Python strings are modelled as lists of characters. -/
abbrev Str := List Char

/-- View of a Lean string literal as the model's string type. -/
def pstr (s : String) : Str := s.data

/-- Python `str.split(sep)` for a one-character separator: keeps empty pieces
and yields one (empty) piece for the empty string. -/
def splitOnChar (sep : Char) : Str → List Str
  | [] => [[]]
  | c :: cs =>
    if c = sep then [] :: splitOnChar sep cs
    else
      match splitOnChar sep cs with
      | [] => [[c]]
      | r :: rs => (c :: r) :: rs

/-- Helper for `replaceSub`: scans left to right; `skip` counts characters
still to be dropped because they belonged to an already-replaced match. -/
def replaceSubAux (pat rep : Str) : Nat → Str → Str
  | _, [] => []
  | k + 1, _ :: cs => replaceSubAux pat rep k cs
  | 0, c :: cs =>
    if pat ≠ [] ∧ pat.isPrefixOf (c :: cs) then
      rep ++ replaceSubAux pat rep (pat.length - 1) cs
    else
      c :: replaceSubAux pat rep 0 cs

/-- Python `str.replace(pat, rep)`: replaces non-overlapping occurrences left
to right.  (The Python behaviour for an empty pattern is never exercised by
the embedded code; here an empty pattern is the identity.) -/
def replaceSub (pat rep : Str) (s : Str) : Str := replaceSubAux pat rep 0 s

/-- Lookup in an association list, as Python `dict.get` on a dict whose keys
are unique. -/
def alookup {α β : Type} [DecidableEq α] (k : α) : List (α × β) → Option β
  | [] => none
  | (k', v) :: rest => if k' = k then some v else alookup k rest

/-- Python exceptions raised by the modelled code paths. -/
inductive PyErr where
  | keyError
  | indexError
  | valueError
  | runtimeError
  | typeError
deriving DecidableEq, Repr

/-- Reading a possibly-absent dictionary key with Python `[...]` subscripting:
absence raises `KeyError`. -/
def getKey {α : Type} : Option α → Except PyErr α
  | some a => .ok a
  | none => .error .keyError

/-- A `datetime.datetime` as far as the embedded code inspects it. -/
structure PyDateTime where
  year : Nat
  month : Nat
  day : Nat
  hour : Nat
  minute : Nat
deriving DecidableEq, Repr

/-- The heterogeneous values stored in a normalized taskwarrior mapping. -/
inductive Value where
  | pynone
  | pystr (s : Str)
  | pyint (n : Int)
  | pydate (d : PyDateTime)
  | pystrList (xs : List Str)
deriving DecidableEq, Repr

/-- A `datetime or None` value as stored in the normalized mapping. -/
def Value.ofOptDate : Option PyDateTime → Value
  | none => .pynone
  | some d => .pydate d

/-- Numeric value of a string of ASCII digits. -/
def digitsToNat (s : Str) : Nat :=
  s.foldl (fun acc c => acc * 10 + (c.toNat - '0'.toNat)) 0

/-- A `strptime` numeric field of at most `maxLen` digits (as the `%m`, `%d`,
`%H`, `%M` field regexes allow one or two digits). -/
def parseDigits (maxLen : Nat) (s : Str) : Option Nat :=
  if s ≠ [] ∧ s.length ≤ maxLen ∧ s.all (fun c => c.isDigit) then
    some (digitsToNat s)
  else none

/-- A `strptime` `%Y` field: exactly four digits. -/
def parseYear (s : Str) : Option Nat :=
  if s.length = 4 ∧ s.all (fun c => c.isDigit) then some (digitsToNat s) else none

/-- Day count per month, with Gregorian leap years, as `datetime` validates. -/
def daysInMonth (y m : Nat) : Nat :=
  if m = 2 then
    if (y % 4 = 0 ∧ y % 100 ≠ 0) ∨ y % 400 = 0 then 29 else 28
  else if m = 4 ∨ m = 6 ∨ m = 9 ∨ m = 11 then 30 else 31

/-- `datetime.strptime(s, "%Y-%m-%d")`: `None` models a raised `ValueError`. -/
def strptimeYMD (s : Str) : Option PyDateTime :=
  match splitOnChar '-' s with
  | [ys, ms, ds] =>
    match parseYear ys, parseDigits 2 ms, parseDigits 2 ds with
    | some y, some m, some d =>
      if 1 ≤ y ∧ 1 ≤ m ∧ m ≤ 12 ∧ 1 ≤ d ∧ d ≤ daysInMonth y m then
        some ⟨y, m, d, 0, 0⟩
      else none
    | _, _, _ => none
  | _ => none

/-- `datetime.strptime(s, "%Y-%m-%d %H:%M")`. -/
def strptimeYMDHM (s : Str) : Option PyDateTime :=
  match splitOnChar ' ' s with
  | [ds, ts] =>
    match strptimeYMD ds, splitOnChar ':' ts with
    | some d, [hs, ms] =>
      match parseDigits 2 hs, parseDigits 2 ms with
      | some h, some mi =>
        if h ≤ 23 ∧ mi ≤ 59 then some { d with hour := h, minute := mi } else none
      | _, _ => none
    | _, _ => none
  | _ => none

/-- Decimal rendering of a natural number, as Python `"%s" % n`. -/
def natToStr (n : Nat) : Str := Nat.toDigits 10 n

/-- Decimal rendering of a Python integer. -/
def intToStr (i : Int) : Str :=
  if i < 0 then '-' :: natToStr i.natAbs else natToStr i.natAbs

/-- Modelled from the spec: `Issue.build_default_description` lives in the
`bugwarrior.services` base module, which is missing from the excerpt.  The
spec's worked example fixes its output for `cls='issue'`:
`"(bw)Is#204 - Some Summary .. http://x/ticket/204"`, i.e. a `"(bw)"` prefix,
the class marker `"Is"`, `#number`, ` - `, the title, ` .. `, and the url. -/
def build_default_description (title url number cls : Str) : Str :=
  pstr "(bw)" ++ (if cls = pstr "issue" then pstr "Is" else []) ++
    '#' :: number ++ pstr " - " ++ title ++ pstr " .. " ++ url

/-! ### Trac (bugwarrior/services/trac.py) -/

/-- `TracIssue.PRIORITY_MAP` (trac.py lines 52-58). -/
def TracIssue.PRIORITY_MAP : List (Str × Str) :=
  [(pstr "trivial", pstr "L"),
   (pstr "minor", pstr "L"),
   (pstr "major", pstr "M"),
   (pstr "critical", pstr "H"),
   (pstr "blocker", pstr "H")]

/-- The fields of a raw Trac ticket that `TracIssue` reads.  Every field is
optional because the record is a Python dict: an absent key raises `KeyError`
under `[...]` and yields `None` under `.get`. -/
structure TracRecord where
  url : Option Str := none
  summary : Option Str := none
  component : Option Str := none
  priority : Option Str := none
  number : Option Int := none
  id : Option Int := none

/-- The `extra` mapping populated by `TracService.issues` (trac.py 182-185). -/
structure TracExtra where
  project : Str
  annotations : List Str

/-- `TracIssue.get_priority` (trac.py 86-90):
`PRIORITY_MAP.get(record.get('priority'), config.default_priority)`. -/
def TracIssue.get_priority (record : TracRecord) (default_priority : Str) : Str :=
  match record.priority with
  | some p => (alookup p TracIssue.PRIORITY_MAP).getD default_priority
  | none => default_priority

/-- `TracIssue.to_taskwarrior` (trac.py 60-70). -/
def TracIssue.to_taskwarrior (record : TracRecord) (extra : TracExtra)
    (default_priority : Str) : Except PyErr (List (String × Value)) := do
  let url ← getKey record.url
  let summary ← getKey record.summary
  let number ← getKey record.number
  let component ← getKey record.component
  .ok [("project", .pystr extra.project),
       ("priority", .pystr (TracIssue.get_priority record default_priority)),
       ("annotations", .pystrList extra.annotations),
       ("tracurl", .pystr url),
       ("tracsummary", .pystr summary),
       ("tracnumber", .pyint number),
       ("traccomponent", .pystr component)]

/-- `TracIssue.get_default_description` (trac.py 72-84): uses the record's
`'number'` when present and otherwise its `'id'`. -/
def TracIssue.get_default_description (record : TracRecord) : Except PyErr Str := do
  let number ← match record.number with
    | some n => .ok n
    | none => getKey record.id
  let summary ← getKey record.summary
  let url ← getKey record.url
  .ok (build_default_description summary url (intToStr number) (pstr "issue"))

/-- `TracService.issues`, CSV path (trac.py 157-166): a response status other
than 200 raises `RuntimeError("Trac responded with ...")`. -/
def TracService.csv_fetch_check (status_code : Nat) : Except PyErr Unit :=
  if status_code ≠ 200 then .error .runtimeError else .ok ()

/-! ### Logseq (bugwarrior/services/logseq.py) -/

/-- The link/bracket replacement characters of `LogseqConfig`
(logseq.py 21-24), with their defaults. -/
structure LogseqConfig where
  char_open_link : Str := pstr "【"
  char_close_link : Str := pstr "】"
  char_open_bracket : Str := pstr "〈"
  char_close_bracket : Str := pstr "〉"

/-- The fields of a Logseq block record that `LogseqIssue` reads.  `content`,
`marker`, `id` and `uuid` are always provided by the datascript pull; the
`'priority'` key may be absent. -/
structure LogseqRecord where
  id : Int
  uuid : Str
  marker : Str
  content : Str
  priority : Option Str := none

/-- `LogseqIssue._unescape_content` (logseq.py 149-156). -/
def LogseqIssue.unescape_content (cfg : LogseqConfig) (content : Str) : Str :=
  replaceSub (pstr "]") cfg.char_close_bracket
    (replaceSub (pstr "[") cfg.char_open_bracket
      (replaceSub (pstr "]]") cfg.char_close_link
        (replaceSub (pstr "[[") cfg.char_open_link
          (replaceSub (pstr "\"") (pstr "'") content))))

/-- `LogseqIssue.get_formated_title` (logseq.py 159-168): first content line,
priority markers removed, then unescaped. -/
def LogseqIssue.get_formated_title (cfg : LogseqConfig) (record : LogseqRecord) : Str :=
  LogseqIssue.unescape_content cfg
    (replaceSub (pstr "[#C] ") []
      (replaceSub (pstr "[#B] ") []
        (replaceSub (pstr "[#A] ") []
          ((splitOnChar '\n' record.content).headD []))))

/-- Characters matched by the `[^‹open_link›^\s]` class of the tag regex in
`LogseqIssue.get_tags_from_content`: anything except the configured open-link
characters, `'^'`, and whitespace. -/
def isTagChar (openLink : Str) (c : Char) : Bool :=
  !(openLink.contains c) && !(c == '^') &&
    !([' ', '\t', '\n', '\r', '\x0b', '\x0c'].contains c)

/-- `re.findall(r"(#[^‹open_link›^\s]+)", title)` for the fixed shape of the
tag pattern: a left-to-right scan collecting maximal runs of tag characters
that follow a `'#'`, keeping a run only when at least one tag character
follows the `'#'`.  `buf` holds the characters of a candidate match in
reverse. -/
def findTagsAux (openLink : Str) : Str → Option Str → List Str
  | [], none => []
  | [], some buf => if 2 ≤ buf.length then [buf.reverse] else []
  | c :: cs, none =>
    if c = '#' then findTagsAux openLink cs (some ['#'])
    else findTagsAux openLink cs none
  | c :: cs, some buf =>
    if isTagChar openLink c then findTagsAux openLink cs (some (c :: buf))
    else (if 2 ≤ buf.length then [buf.reverse] else []) ++ findTagsAux openLink cs none

/-- `LogseqIssue.get_tags_from_content` (logseq.py 171-176). -/
def LogseqIssue.get_tags_from_content (cfg : LogseqConfig) (record : LogseqRecord) :
    List Str :=
  findTagsAux cfg.char_open_link (LogseqIssue.get_formated_title cfg record) none

/-- The `date_split` list computed by `LogseqIssue.get_scheduled_date`
(logseq.py 203-208): marker text and angle brackets removed, then split on
single spaces. -/
def LogseqIssue.date_split (scheduled : Str) : List Str :=
  splitOnChar ' '
    (replaceSub (pstr ">") []
      (replaceSub (pstr "SCHEDULED: <") []
        (replaceSub (pstr "DEADLINE: <") [] scheduled)))

/-- `LogseqIssue.get_scheduled_date` (logseq.py 200-231).  The result is
`Except` because `date_split[2][0]` raises `IndexError` when the third piece
is empty; `datetime.strptime`'s `ValueError` is caught and yields `None`. -/
def LogseqIssue.get_scheduled_date (scheduled : Str) : Except PyErr (Option PyDateTime) :=
  match LogseqIssue.date_split scheduled with
  | [d, _] => .ok (strptimeYMD d)
  | [d, _, r] =>
    match r with
    | [] => .error .indexError
    | rc :: _ =>
      if rc = '+' ∨ rc = '.' then .ok (strptimeYMD d)
      else .ok (strptimeYMDHM (d ++ ' ' :: r))
  | [d, _, t, _] => .ok (strptimeYMDHM (d ++ ' ' :: t))
  | _ => .ok none

/-- State threaded by the line loop of `get_annotations_from_content`. -/
structure AnnotState where
  annotations : List Str
  scheduled_date : Option PyDateTime := none
  deadline_date : Option PyDateTime := none

/-- `LogseqIssue.get_annotations_from_content` (logseq.py 179-192): walks the
content lines, sending SCHEDULED/DEADLINE lines through the date parser (a
later such line overwrites an earlier one, even with a null parse) and
collecting every other line, unescaped, as an annotation; finally
`annotations.pop(0)` drops the first line and raises `IndexError` when no
annotation line was collected. -/
def LogseqIssue.get_annotations_from_content (cfg : LogseqConfig)
    (record : LogseqRecord) :
    Except PyErr (List Str × Option PyDateTime × Option PyDateTime) := do
  let st ← (splitOnChar '\n' record.content).foldlM
    (fun (st : AnnotState) line => do
      if (pstr "SCHEDULED: ").isPrefixOf line then
        let d ← LogseqIssue.get_scheduled_date line
        pure { st with scheduled_date := d }
      else if (pstr "DEADLINE: ").isPrefixOf line then
        let d ← LogseqIssue.get_scheduled_date line
        pure { st with deadline_date := d }
      else
        pure { st with
          annotations := st.annotations ++ [LogseqIssue.unescape_content cfg line] })
    { annotations := [] }
  match st.annotations with
  | [] => .error .indexError
  | _ :: rest => .ok (rest, st.scheduled_date, st.deadline_date)

/-- `LogseqIssue.PRIORITY_MAP` (logseq.py 129-133). -/
def LogseqIssue.PRIORITY_MAP : List (Str × Str) :=
  [(pstr "A", pstr "H"), (pstr "B", pstr "M"), (pstr "C", pstr "L")]

/-- `LogseqIssue.STATE_MAP` (logseq.py 135-146). -/
def LogseqIssue.STATE_MAP : List (Str × Str) :=
  [(pstr "IN-PROGRESS", pstr "pending"), (pstr "DOING", pstr "pending"),
   (pstr "TODO", pstr "pending"), (pstr "NOW", pstr "pending"),
   (pstr "LATER", pstr "pending"), (pstr "WAIT", pstr "waiting"),
   (pstr "WAITING", pstr "waiting"), (pstr "DONE", pstr "completed"),
   (pstr "CANCELED", pstr "deleted"), (pstr "CANCELLED", pstr "deleted")]

/-- `LogseqIssue.get_url` (logseq.py 194-195). -/
def LogseqIssue.get_url (graph : Str) (record : LogseqRecord) : Str :=
  pstr "logseq://graph/" ++ graph ++ pstr "?block-id=" ++ record.uuid

/-- The priority expression of `LogseqIssue.to_taskwarrior` (logseq.py 237-241):
`PRIORITY_MAP[record["priority"]] if "priority" in record else None`.
The bare subscript raises `KeyError` for a priority outside the map. -/
def LogseqIssue.priority_value (priority : Option Str) : Except PyErr Value :=
  match priority with
  | some p =>
    match alookup p LogseqIssue.PRIORITY_MAP with
    | some v => .ok (.pystr v)
    | none => .error .keyError
  | none => .ok .pynone

/-- `LogseqIssue.to_taskwarrior` (logseq.py 233-254).  `graph` is
`extra["graph"]`. -/
def LogseqIssue.to_taskwarrior (cfg : LogseqConfig) (graph : Str)
    (record : LogseqRecord) : Except PyErr (List (String × Value)) := do
  let (annotations, scheduled_date, deadline_date) ←
    LogseqIssue.get_annotations_from_content cfg record
  let priority ← LogseqIssue.priority_value record.priority
  let status ← getKey (alookup record.marker LogseqIssue.STATE_MAP)
  .ok [("project", .pystr graph),
       ("priority", priority),
       ("annotations", .pystrList annotations),
       ("tags", .pystrList (LogseqIssue.get_tags_from_content cfg record)),
       ("due", Value.ofOptDate deadline_date),
       ("scheduled", Value.ofOptDate scheduled_date),
       ("status", .pystr status),
       ("logseqid", .pyint record.id),
       ("logsequuid", .pystr record.uuid),
       ("logseqstate", .pystr record.marker),
       ("logseqtitle", .pystr (LogseqIssue.get_formated_title cfg record)),
       ("logseqscheduled", Value.ofOptDate scheduled_date),
       ("logseqdeadline", Value.ofOptDate deadline_date),
       ("logsequri", .pystr (LogseqIssue.get_url graph record))]

/-- Result of `requests.post` as seen by the Logseq client. -/
inductive ConnResult (α : Type) where
  | ok (response : α)
  | connectionError

/-- Outcome of a client call: either data, or termination of the whole
process (Python `exit()`), which no caller can catch as an adapter error. -/
inductive CallOutcome (α : Type) where
  | result (a : α)
  | processExit

/-- `LogseqClient._datascript_query` (logseq.py 41-51): a
`requests.exceptions.ConnectionError` is caught, logged via `log.fatal`, and
followed by `exit()`, which terminates the whole process. -/
def LogseqClient.datascript_query {α : Type} : ConnResult α → CallOutcome α
  | .ok r => .result r
  | .connectionError => .processExit

/-! ### GitHub (bugwarrior/services/github.py) -/

/-- A label object, as far as `GithubIssue.get_tags` reads it. -/
structure GhLabel where
  name : Str
deriving DecidableEq, Repr

/-- The fields of a raw GitHub issue/PR record that the service reads.
`html_url`, `url`, `title`, `number` and the user login are always present in
API results; `Option` fields model dict keys that may be absent (`milestone`
distinguishes an absent key, a null value, and a `{'title': …}` object). -/
structure GhRecord where
  html_url : Str := []
  url : Str := []
  title : Str := []
  number : Int := 0
  user_login : Str := []
  body : Option Str := none
  milestone : Option (Option Str) := none
  created_at : Option Str := none
  updated_at : Option Str := none
  closed_at : Option Str := none
  state : Option Str := none
  draft : Option Bool := none
  labels : Option (List GhLabel) := none
  repo : Option Str := none
  repos_url : Option Str := none
  repository_url : Option Str := none
deriving DecidableEq, Repr

/-- The `extra` mapping populated by `GithubService.issues` (github.py
505-511).  `annotations` is read back with `.get('annotations', [])`. -/
structure GhExtra where
  project : Str := []
  type : Str := []
  annotations : Option (List Str) := none
  body : Option Str := none
  nmspace : Str := []

/-- Modelled from the spec: `Issue.get_tags_from_labels` lives in the missing
`bugwarrior.services` base module.  Per the spec ("Tag extraction: derive
from labels/markers using a configured template; must be stable (same input →
same output ordering)"), when `import_labels_as_tags` is set it renders the
configured label template once per label, keeping label order; otherwise no
tags are produced.  `render` stands for instantiating the configured
template. -/
def get_tags_from_labels (import_labels_as_tags : Bool) (render : Str → Str)
    (labels : List Str) : List Str :=
  if import_labels_as_tags then
    labels.foldl (fun tags label => tags ++ [render label]) []
  else []

/-- `GithubIssue.get_tags` (github.py 305-307). -/
def GithubIssue.get_tags (import_labels_as_tags : Bool) (render : Str → Str)
    (record : GhRecord) : List Str :=
  get_tags_from_labels import_labels_as_tags render
    ((record.labels.getD []).map GhLabel.name)

/-- `GithubIssue.to_taskwarrior` (github.py 272-303).  `parse_date` stands
for the base-module `Issue.parse_date`, modelled from the spec as a total
parser (a null or unparseable date yields null rather than raising). -/
def GithubIssue.to_taskwarrior (parse_date : Option Str → Option PyDateTime)
    (default_priority : Str) (import_labels_as_tags : Bool) (render : Str → Str)
    (record : GhRecord) (extra : GhExtra) : Except PyErr (List (String × Value)) := do
  let milestone ← match record.milestone with
    | none => .error .keyError
    | some none => .ok Value.pynone
    | some (some title) => .ok (Value.pystr title)
  let created := parse_date record.created_at
  let updated := parse_date record.updated_at
  let closed := parse_date record.closed_at
  let repo ← getKey record.repo
  .ok [("project", .pystr extra.project),
       ("priority", .pystr default_priority),
       ("annotations", .pystrList (extra.annotations.getD [])),
       ("tags", .pystrList (GithubIssue.get_tags import_labels_as_tags render record)),
       ("entry", Value.ofOptDate created),
       ("end", Value.ofOptDate closed),
       ("githuburl", .pystr record.html_url),
       ("githubrepo", .pystr repo),
       ("githubtype", .pystr extra.type),
       ("githubuser", .pystr record.user_login),
       ("githubtitle", .pystr record.title),
       ("githubbody", match extra.body with | none => Value.pynone | some b => .pystr b),
       ("githubmilestone", milestone),
       ("githubnumber", .pyint record.number),
       ("githubcreatedon", Value.ofOptDate created),
       ("githubupdatedat", Value.ofOptDate updated),
       ("githubclosedon", Value.ofOptDate closed),
       ("githubnamespace", .pystr extra.nmspace),
       ("githubstate", .pystr (record.state.getD [])),
       ("githubdraft", .pyint (if record.draft.getD false then 1 else 0))]

/-- `GithubService.body` (github.py 398-406): the record's `body`, which
Python treats as falsy when null or empty; a truthy body is CRLF-normalized
and then truncated to `config.body_length`. -/
def GithubService.body (body_length : Nat) (issue : GhRecord) : Option Str :=
  match issue.body with
  | none => none
  | some b =>
    if b ≠ [] then some ((replaceSub (pstr "\r\n") (pstr "\n") b).take body_length)
    else some b

/-- A repository object from `client.get_repos`, as far as `filter_repos`
reads it. -/
structure GhRepo where
  owner_login : Str
  name : Str

/-- The configuration fields of `GithubConfig` that `GithubService.issues`
reads; defaults as in github.py 16-42 (an empty `query` is falsy). -/
structure GhConfig where
  username : Str := []
  query : Str := []
  involved_issues : Bool := false
  include_user_repos : Bool := true
  include_repos : List Str := []
  exclude_repos : List Str := []
  include_user_issues : Bool := true
  issue_urls : List Str := []

/-- The network results consumed by one run of `GithubService.issues`. -/
structure GhFetchData where
  query_result : List GhRecord := []
  involved_result : List GhRecord := []
  all_repos : List GhRepo := []
  repo_issues : Str → List GhRecord := fun _ => []
  directly_assigned : List GhRecord := []
  issue_for_url_path : Str → GhRecord := fun _ => {}

/-- Python dict assignment `d[k] = v`: overwriting keeps the key's original
position, a new key is appended. -/
def dictInsert {α β : Type} [DecidableEq α] (d : List (α × β)) (k : α) (v : β) :
    List (α × β) :=
  match alookup k d with
  | some _ => d.map (fun kv => if kv.1 = k then (k, v) else kv)
  | none => d ++ [(k, v)]

/-- Python `dict.update`: assign every pair of `u`, in order, into `d`. -/
def dictUpdate {α β : Type} [DecidableEq α] (d u : List (α × β)) : List (α × β) :=
  u.foldl (fun acc kv => dictInsert acc kv.1 kv.2) d

/-- The value of the last pair carrying key `k`, i.e. the binding that wins
when the pairs are assigned into a dict left to right. -/
def alookupLast {α β : Type} [DecidableEq α] (k : α) : List (α × β) → Option β
  | [] => none
  | (k', v) :: rest =>
    match alookupLast k rest with
    | some w => some w
    | none => if k' = k then some v else none

/-- First-some choice: the dict-update fallback from the later bindings to
the earlier dict. -/
def orLookup {β : Type} (o y : Option β) : Option β :=
  match o with
  | some v => some v
  | none => y

/-- The issue dictionaries built inside `GithubService.issues`: keys are the
strings each fetch path chooses, values are `(repo-tag, record)` pairs. -/
abbrev GhDict := List (Str × (Str × GhRecord))

/-- `GithubService.get_repository_from_issue` (github.py 367-380): prefers
the stuffed `'repo'` key, else extracts `owner/repo` as the match of
`.*/([^/]*/[^/]*)$` against `repos_url` or `repository_url` (the last two
`/`-separated pieces); a missing url, or a url with fewer than two `/`,
raises `ValueError`. -/
def GithubService.get_repository_from_issue (issue : GhRecord) : Except PyErr Str :=
  match issue.repo with
  | some r => .ok r
  | none =>
    let url? := match issue.repos_url with
      | some u => some u
      | none => issue.repository_url
    match url? with
    | none => .error .valueError
    | some url =>
      match (splitOnChar '/' url).reverse with
      | b :: a :: _ :: _ => .ok (a ++ '/' :: b)
      | _ => .error .valueError

/-- `GithubService.get_owned_repo_issues` (github.py 332-337): keyed by the
record's API `url`. -/
def GithubService.get_owned_repo_issues (fetch : Str → List GhRecord)
    (tag : Str) : GhDict :=
  (fetch tag).foldl (fun issues issue => dictInsert issues issue.url (tag, issue)) []

/-- `GithubService.get_query` (github.py 339-350): keyed by the record's
`html_url`; a record whose repository cannot be derived is logged critically
and skipped. -/
def GithubService.get_query (fetched : List GhRecord) : GhDict :=
  fetched.foldl
    (fun issues issue =>
      match GithubService.get_repository_from_issue issue with
      | .error _ => issues
      | .ok repo => dictInsert issues issue.html_url (repo, issue))
    []

/-- `GithubService.get_directly_assigned_issues` (github.py 352-357): keyed
by the record's API `url`; here a failing repository derivation is not
caught. -/
def GithubService.get_directly_assigned_issues (fetched : List GhRecord) :
    Except PyErr GhDict :=
  fetched.foldlM
    (fun issues issue => do
      let repo ← GithubService.get_repository_from_issue issue
      pure (dictInsert issues issue.url (repo, issue)))
    []

/-- The repository extraction of `GithubService.get_issues_by_url`
(github.py 363): the match of `(?<=^/)(.*/.*)(?=/(issues|pull)/[0-9]*$)`
against the url path; subscripting a failed search raises `TypeError`. -/
def repo_from_url_path (p : Str) : Except PyErr Str :=
  match splitOnChar '/' p with
  | [] :: rest =>
    match rest.reverse with
    | num :: kind :: mid =>
      if (kind = pstr "issues" ∨ kind = pstr "pull") ∧
          num.all (fun c => c.isDigit) ∧ 2 ≤ mid.length then
        .ok (List.intercalate (pstr "/") mid.reverse)
      else .error .typeError
    | _ => .error .typeError
  | _ => .error .typeError

/-- `GithubService.get_issues_by_url` (github.py 359-365): keyed by the
configured url path. -/
def GithubService.get_issues_by_url (fetch : Str → GhRecord)
    (issue_urls : List Str) : Except PyErr GhDict :=
  issue_urls.foldlM
    (fun issues url_path => do
      let issue := fetch url_path
      let repo ← repo_from_url_path url_path
      pure (dictInsert issues url_path (repo, issue)))
    []

/-- `GithubService.filter_repo_name` (github.py 429-439). -/
def GithubService.filter_repo_name (cfg : GhConfig) (name : Str) : Bool :=
  if name ∈ cfg.exclude_repos then false
  else if cfg.include_repos ≠ [] then decide (name ∈ cfg.include_repos)
  else true

/-- `GithubService.filter_repos` (github.py 423-427). -/
def GithubService.filter_repos (cfg : GhConfig) (repo : GhRepo) : Bool :=
  if repo.owner_login ≠ cfg.username then false
  else GithubService.filter_repo_name cfg repo.name

/-- `GithubService.filter_issues` (github.py 419-421), applied to dict items:
the "repo name" is the third-from-last `/`-separated piece of the item's KEY
(an API url, or a url path); fewer than three pieces raise `IndexError`. -/
def GithubService.filter_issues (cfg : GhConfig) (item : Str × (Str × GhRecord)) :
    Except PyErr Bool :=
  match (splitOnChar '/' item.1).reverse with
  | _ :: _ :: name :: _ => .ok (GithubService.filter_repo_name cfg name)
  | _ => .error .indexError

/-- The query / involved-issues stage of `GithubService.issues`
(github.py 461-466). -/
def ghStage1 (cfg : GhConfig) (data : GhFetchData) : GhDict :=
  if cfg.query ≠ [] then dictUpdate [] (GithubService.get_query data.query_result)
  else if cfg.involved_issues then
    dictUpdate [] (GithubService.get_query data.involved_result)
  else []

/-- Adds the owned-repositories stage (github.py 468-482). -/
def ghStage2 (cfg : GhConfig) (data : GhFetchData) : GhDict :=
  if cfg.include_user_repos then
    let repos := if cfg.include_repos ≠ [] then cfg.include_repos
      else (data.all_repos.filter (GithubService.filter_repos cfg)).map GhRepo.name
    repos.foldl
      (fun acc repo =>
        dictUpdate acc
          (GithubService.get_owned_repo_issues data.repo_issues
            (cfg.username ++ '/' :: repo)))
      (ghStage1 cfg data)
  else ghStage1 cfg data

/-- The directly-assigned items kept by `filter_issues` (github.py 484-486). -/
def ghAssignedKept (cfg : GhConfig) (data : GhFetchData) : Except PyErr GhDict := do
  let da ← GithubService.get_directly_assigned_issues data.directly_assigned
  da.filterM (fun item => GithubService.filter_issues cfg item)

/-- Adds the directly-assigned stage (github.py 483-487). -/
def ghStage3 (cfg : GhConfig) (data : GhFetchData) : Except PyErr GhDict :=
  if cfg.include_user_issues then do
    let kept ← ghAssignedKept cfg data
    pure (dictUpdate (ghStage2 cfg data) kept)
  else pure (ghStage2 cfg data)

/-- The by-url items kept by `filter_issues` (github.py 489). -/
def ghByUrlKept (cfg : GhConfig) (data : GhFetchData) : Except PyErr GhDict := do
  let bu ← GithubService.get_issues_by_url data.issue_for_url_path cfg.issue_urls
  bu.filterM (fun item => GithubService.filter_issues cfg item)

/-- The issue dictionary built by `GithubService.issues` (github.py 460-490),
before the `include` filter and the yield loop, which consume
`issues.values()` and do not change the per-key dedup behaviour. -/
def GithubService.issuesDict (cfg : GhConfig) (data : GhFetchData) :
    Except PyErr GhDict :=
  if cfg.issue_urls ≠ [] then do
    let st3 ← ghStage3 cfg data
    let kept ← ghByUrlKept cfg data
    pure (dictUpdate st3 kept)
  else ghStage3 cfg data

/-! ### Bitbucket (bugwarrior/services/bitbucket.py) -/

/-- `BitbucketIssue.PRIORITY_MAP` (bitbucket.py 63-69). -/
def BitbucketIssue.PRIORITY_MAP : List (Str × Str) :=
  [(pstr "trivial", pstr "L"),
   (pstr "minor", pstr "L"),
   (pstr "major", pstr "M"),
   (pstr "critical", pstr "H"),
   (pstr "blocker", pstr "H")]

/-- The fields of a raw Bitbucket issue that `BitbucketIssue` reads. -/
structure BitbucketRecord where
  id : Int
  title : Str
  priority : Option Str := none

/-- The `extra` mapping populated by `BitbucketService.issues`
(bitbucket.py 219-224). -/
structure BitbucketExtra where
  project : Str
  url : Str
  annotations : List Str

/-- Modelled from the spec: the base-class `Issue.get_priority` that
`BitbucketIssue.to_taskwarrior` calls is outside the excerpt; per the spec
("Priority mapping: look up raw priority string in a per-service table; on
miss, use configured default") it looks the raw priority up in the service's
`PRIORITY_MAP` and falls back to the configured default when absent or
unmapped. -/
def BitbucketIssue.get_priority (record : BitbucketRecord)
    (default_priority : Str) : Str :=
  match record.priority with
  | some p => (alookup p BitbucketIssue.PRIORITY_MAP).getD default_priority
  | none => default_priority

/-- `BitbucketIssue.to_taskwarrior` (bitbucket.py 71-80). -/
def BitbucketIssue.to_taskwarrior (record : BitbucketRecord)
    (extra : BitbucketExtra) (default_priority : Str) : List (String × Value) :=
  [("project", .pystr extra.project),
   ("priority", .pystr (BitbucketIssue.get_priority record default_priority)),
   ("annotations", .pystrList extra.annotations),
   ("bitbucketurl", .pystr extra.url),
   ("bitbucketid", .pyint record.id),
   ("bitbuckettitle", .pystr record.title)]

/-! ### The pull command (bugwarrior/command.py) -/

/-- Outcome of `lockfile.acquire(timeout=10)` in `pull`. -/
inductive LockResult where
  | acquired
  | timeout
deriving DecidableEq, Repr

/-- Outcome of `synchronize(...)` as `pull` observes it. -/
inductive SyncResult where
  | success
  | runtimeError
deriving DecidableEq, Repr

/-- What one run of `pull` did, as far as the lock and exit contract goes. -/
structure PullOutcome where
  exitCode : Option Nat
  criticalLog : Option Str
  lockReleased : Bool
deriving DecidableEq, Repr

/-- The `log.critical` message built at command.py 113-119, naming the lock
file path. -/
def lockTimeoutMessage (lockfile_path : Str) : Str :=
  pstr "Your taskrc repository is currently locked. Remove the file at " ++
    lockfile_path ++
    pstr " if you are sure no other bugwarrior processes are currently running."

/-- `pull` (command.py 90-123): `LockTimeout` is caught, a critical message
naming the lock file path is logged, and the process exits with status 1;
once the lock is acquired the `try/finally` releases it whether or not
`synchronize` raises; a `RuntimeError` is logged and also exits with
status 1. -/
def pull (lockfile_path : Str) (lock : LockResult) (sync : SyncResult) : PullOutcome :=
  match lock with
  | .timeout =>
    { exitCode := some 1,
      criticalLog := some (lockTimeoutMessage lockfile_path),
      lockReleased := false }
  | .acquired =>
    match sync with
    | .success => { exitCode := none, criticalLog := none, lockReleased := true }
    | .runtimeError => { exitCode := some 1, criticalLog := none, lockReleased := true }

/-! ### Association-list / dict lemmas -/

theorem alookup_append {α β : Type} [DecidableEq α] (k : α) (l1 l2 : List (α × β)) :
    alookup k (l1 ++ l2) =
      match alookup k l1 with
      | some v => some v
      | none => alookup k l2 := by
  induction l1 with
  | nil => simp [alookup]
  | cons kv rest ih =>
    obtain ⟨k', v⟩ := kv
    by_cases h : k' = k <;> simp [alookup, h, ih]

theorem alookup_eq_none {α β : Type} [DecidableEq α] (k : α) (d : List (α × β)) :
    alookup k d = none ↔ k ∉ d.map Prod.fst := by
  induction d with
  | nil => simp [alookup]
  | cons kv rest ih =>
    obtain ⟨k', v⟩ := kv
    by_cases h : k' = k
    · subst h; simp [alookup]
    · simp [alookup, h, ih, Ne.symm h]

theorem alookup_map_overwrite {α β : Type} [DecidableEq α]
    (d : List (α × β)) (k : α) (v : β) :
    alookup k (d.map (fun kv => if kv.1 = k then (k, v) else kv)) =
      (alookup k d).map (fun _ => v) := by
  induction d with
  | nil => simp [alookup]
  | cons kv rest ih =>
    obtain ⟨k', v'⟩ := kv
    simp only [List.map_cons]
    by_cases h : k' = k
    · subst h
      rw [if_pos rfl]
      simp [alookup, ih]
    · rw [if_neg h]
      simp [alookup, h, ih]

theorem alookup_map_overwrite_ne {α β : Type} [DecidableEq α]
    (d : List (α × β)) (k k' : α) (v : β) (h : k' ≠ k) :
    alookup k' (d.map (fun kv => if kv.1 = k then (k, v) else kv)) =
      alookup k' d := by
  induction d with
  | nil => simp
  | cons kv rest ih =>
    obtain ⟨k0, v0⟩ := kv
    simp only [List.map_cons]
    by_cases h0 : k0 = k
    · subst h0
      rw [if_pos rfl]
      simp [alookup, Ne.symm h, ih]
    · rw [if_neg h0]
      by_cases h1 : k0 = k' <;> simp [alookup, h1, ih]

theorem map_fst_overwrite {α β : Type} [DecidableEq α]
    (d : List (α × β)) (k : α) (v : β) :
    (d.map (fun kv => if kv.1 = k then (k, v) else kv)).map Prod.fst =
      d.map Prod.fst := by
  induction d with
  | nil => rfl
  | cons kv rest ih =>
    obtain ⟨k0, v0⟩ := kv
    by_cases h0 : k0 = k
    · subst h0; simp [ih]
    · simp [h0, ih]

theorem alookup_dictInsert_self {α β : Type} [DecidableEq α]
    (d : List (α × β)) (k : α) (v : β) :
    alookup k (dictInsert d k v) = some v := by
  simp only [dictInsert]
  split
  · next w h => rw [alookup_map_overwrite, h]; rfl
  · next h => rw [alookup_append, h]; simp [alookup]

theorem alookup_dictInsert_ne {α β : Type} [DecidableEq α]
    (d : List (α × β)) (k k' : α) (v : β) (h : k' ≠ k) :
    alookup k' (dictInsert d k v) = alookup k' d := by
  simp only [dictInsert]
  split
  · next w _ => rw [alookup_map_overwrite_ne _ _ _ _ h]
  · next _ =>
    rw [alookup_append]
    cases h' : alookup k' d <;> simp [alookup, h, Ne.symm h]

theorem dictInsert_keys_nodup {α β : Type} [DecidableEq α]
    {d : List (α × β)} (k : α) (v : β) (h : (d.map Prod.fst).Nodup) :
    ((dictInsert d k v).map Prod.fst).Nodup := by
  simp only [dictInsert]
  split
  · next w _ => rw [map_fst_overwrite]; exact h
  · next hnone =>
    have hk : k ∉ d.map Prod.fst := (alookup_eq_none k d).mp hnone
    simp [List.nodup_append, h, hk]

theorem alookup_dictUpdate {α β : Type} [DecidableEq α]
    (k : α) (d u : List (α × β)) :
    alookup k (dictUpdate d u) = orLookup (alookupLast k u) (alookup k d) := by
  induction u generalizing d with
  | nil => simp [dictUpdate, alookupLast, orLookup]
  | cons kv rest ih =>
    obtain ⟨k0, v0⟩ := kv
    have step : dictUpdate d ((k0, v0) :: rest) =
        dictUpdate (dictInsert d k0 v0) rest := rfl
    rw [step, ih]
    cases h : alookupLast k rest with
    | some w => simp [alookupLast, h, orLookup]
    | none =>
      by_cases hk : k0 = k
      · subst hk; simp [alookupLast, h, orLookup, alookup_dictInsert_self]
      · simp [alookupLast, h, hk, orLookup,
          alookup_dictInsert_ne _ _ _ _ (Ne.symm hk)]

theorem dictUpdate_keys_nodup {α β : Type} [DecidableEq α]
    {d : List (α × β)} (u : List (α × β)) (h : (d.map Prod.fst).Nodup) :
    ((dictUpdate d u).map Prod.fst).Nodup := by
  induction u generalizing d with
  | nil => exact h
  | cons kv rest ih => exact ih (dictInsert_keys_nodup kv.1 kv.2 h)

/-! ### Invariants of the GitHub issue-dictionary stages -/

theorem ghStage1_keys_nodup (cfg : GhConfig) (data : GhFetchData) :
    ((ghStage1 cfg data).map Prod.fst).Nodup := by
  unfold ghStage1
  split_ifs
  · exact dictUpdate_keys_nodup _ (by simp)
  · exact dictUpdate_keys_nodup _ (by simp)
  · simp

theorem ghStage2_keys_nodup (cfg : GhConfig) (data : GhFetchData) :
    ((ghStage2 cfg data).map Prod.fst).Nodup := by
  have H : ∀ (repos : List Str) (acc : GhDict), (acc.map Prod.fst).Nodup →
      ((repos.foldl
        (fun acc repo =>
          dictUpdate acc
            (GithubService.get_owned_repo_issues data.repo_issues
              (cfg.username ++ '/' :: repo)))
        acc).map Prod.fst).Nodup := by
    intro repos
    induction repos with
    | nil => exact fun _ h => h
    | cons r rest ih => exact fun acc h => ih _ (dictUpdate_keys_nodup _ h)
  simp only [ghStage2]
  split_ifs
  · exact H _ _ (ghStage1_keys_nodup cfg data)
  · exact H _ _ (ghStage1_keys_nodup cfg data)
  · exact ghStage1_keys_nodup cfg data

/-- A loop appending one rendered element per input element is an
order-preserving map. -/
theorem foldl_append_eq_map {α β : Type} (f : α → β) (l : List α) (acc : List β) :
    l.foldl (fun t x => t ++ [f x]) acc = acc ++ l.map f := by
  induction l generalizing acc with
  | nil => simp
  | cons x xs ih => simp [ih]

/-- The tag scanner emits, in order, disjoint pieces of its input: the
concatenation of all emitted tags is a subsequence of the scanned text
(prefixed by the in-progress buffer, if any). -/
theorem findTagsAux_flatten_sublist (openLink : Str) (l : Str) (st : Option Str) :
    (findTagsAux openLink l st).flatten.Sublist
      (match st with | none => l | some buf => buf.reverse ++ l) := by
  induction l generalizing st with
  | nil =>
    cases st with
    | none => simp [findTagsAux]
    | some buf =>
      simp only [findTagsAux]
      split_ifs <;> simp
  | cons c cs ih =>
    cases st with
    | none =>
      simp only [findTagsAux]
      split_ifs with hc
      · subst hc
        simpa using ih (some ['#'])
      · exact (ih none).trans (List.sublist_cons_self c cs)
    | some buf =>
      simp only [findTagsAux]
      split_ifs with hc hb
      · simpa [List.reverse_cons, List.append_assoc] using ih (some (c :: buf))
      · have tail : (findTagsAux openLink cs none).flatten.Sublist (c :: cs) :=
          (ih none).trans (List.sublist_cons_self c cs)
        simpa using List.Sublist.append_left tail buf.reverse
      · have tail : (findTagsAux openLink cs none).flatten.Sublist (c :: cs) :=
          (ih none).trans (List.sublist_cons_self c cs)
        simpa using tail.trans (List.sublist_append_right buf.reverse (c :: cs))

/-! ### Claims -/

/-- C7: when the synchronization lock cannot be acquired within its bounded
wait, `pull` catches the lock-timeout exception, logs a critical message
naming the lock file path, and exits with status 1 rather than blocking
silently or retrying; once the lock is acquired it is released even if
`synchronize` raises. -/
theorem C7_pull_lock_contract (lockfile_path : Str) (sync : SyncResult) :
    (pull lockfile_path .timeout sync).exitCode = some 1 ∧
    (pull lockfile_path .timeout sync).criticalLog =
      some (lockTimeoutMessage lockfile_path) ∧
    (pull lockfile_path .acquired sync).lockReleased = true ∧
    (pull lockfile_path .acquired .runtimeError).lockReleased = true := by
  cases sync <;> exact ⟨rfl, rfl, rfl, rfl⟩

/-- The Trac raw ticket of the spec's worked example: id 204 (no separate
'number' key), summary "Some Summary", priority "critical", component
"testcomponent", url "http://x/ticket/204". -/
def c5_record : TracRecord :=
  { url := some (pstr "http://x/ticket/204"),
    summary := some (pstr "Some Summary"),
    component := some (pstr "testcomponent"),
    priority := some (pstr "critical"),
    id := some 204 }

/-- C5: normalizing the Trac raw ticket with id 204, summary "Some Summary",
priority "critical", component "testcomponent" and url "http://x/ticket/204"
yields canonical priority "H" via `TracIssue.get_priority` (for any configured
default) and default description
"(bw)Is#204 - Some Summary .. http://x/ticket/204" via
`TracIssue.get_default_description`, which falls back from 'number' to 'id'. -/
theorem C5_trac_example (default_priority : Str) :
    TracIssue.get_priority c5_record default_priority = pstr "H" ∧
    TracIssue.get_default_description c5_record =
      .ok (pstr "(bw)Is#204 - Some Summary .. http://x/ticket/204") := by
  constructor
  · show (alookup (pstr "critical") TracIssue.PRIORITY_MAP).getD default_priority =
      pstr "H"
    rw [show alookup (pstr "critical") TracIssue.PRIORITY_MAP =
      some (pstr "H") from by decide]
    rfl
  · decide

/-- C3 counterexample: a connection error in the Logseq client's HTTP call
does not leave the run to continue — it is logged fatally and `exit()`
terminates the whole process; likewise a non-200 Trac CSV response raises
`RuntimeError`, which `pull` converts into exit status 1. -/
theorem C3_fetch_failure_counterexample :
    LogseqClient.datascript_query (α := Unit) ConnResult.connectionError =
      CallOutcome.processExit ∧
    TracService.csv_fetch_check 500 = .error .runtimeError ∧
    (pull (pstr "/tmp/lock") LockResult.acquired SyncResult.runtimeError).exitCode =
      some 1 :=
  ⟨rfl, by decide, rfl⟩

/-- C3 (amended): an adapter fetch failure in these two services is fatal to
the run, not skipped: any Logseq connection error is logged fatally and calls
`exit()`, terminating the process, and any non-200 Trac CSV status raises
`RuntimeError`; a `RuntimeError` reaching `pull` is caught, logged and
converted to a non-zero exit (with the lock still released). -/
theorem C3_fetch_failure_amended {α : Type} (status : Nat) (p : Str)
    (h : status ≠ 200) :
    LogseqClient.datascript_query (α := α) ConnResult.connectionError =
      CallOutcome.processExit ∧
    TracService.csv_fetch_check status = .error .runtimeError ∧
    (pull p .acquired .runtimeError).exitCode = some 1 ∧
    (pull p .acquired .runtimeError).lockReleased = true := by
  refine ⟨rfl, ?_, rfl, rfl⟩
  simp [TracService.csv_fetch_check, h]

/-- Witness for C3 (amended) at status 500. -/
theorem C3_fetch_failure_amended_witness :
    LogseqClient.datascript_query (α := Unit) ConnResult.connectionError =
      CallOutcome.processExit ∧
    TracService.csv_fetch_check 500 = .error .runtimeError ∧
    (pull (pstr "lock") .acquired .runtimeError).exitCode = some 1 ∧
    (pull (pstr "lock") .acquired .runtimeError).lockReleased = true :=
  C3_fetch_failure_amended (α := Unit) 500 (pstr "lock") (by decide)

/-- C1 counterexample: a Logseq record whose 'priority' key holds the
arbitrary string "D" makes `LogseqIssue.to_taskwarrior` raise `KeyError`
instead of returning a canonical or default priority. -/
theorem C1_priority_total_counterexample :
    LogseqIssue.to_taskwarrior {} (pstr "g")
      { id := 1, uuid := pstr "u", marker := pstr "TODO",
        content := pstr "TODO broken", priority := some (pstr "D") } =
      .error .keyError := by decide

/-- C1 (amended): Trac's priority normalization is total — for every record
and configured default it returns "L", "M", "H" or the default and never
raises.  Logseq's is not: the priority expression of `to_taskwarrior` yields
null (not the configured default) when the 'priority' key is absent, maps
"A"/"B"/"C" to "H"/"M"/"L", and raises `KeyError` on any other priority
string. -/
theorem C1_priority_amended (record : TracRecord) (default_priority : Str)
    (p : Str) (hp : p ≠ pstr "A") (hp2 : p ≠ pstr "B") (hp3 : p ≠ pstr "C") :
    (TracIssue.get_priority record default_priority = pstr "L" ∨
     TracIssue.get_priority record default_priority = pstr "M" ∨
     TracIssue.get_priority record default_priority = pstr "H" ∨
     TracIssue.get_priority record default_priority = default_priority) ∧
    LogseqIssue.priority_value none = .ok .pynone ∧
    LogseqIssue.priority_value (some (pstr "A")) = .ok (.pystr (pstr "H")) ∧
    LogseqIssue.priority_value (some (pstr "B")) = .ok (.pystr (pstr "M")) ∧
    LogseqIssue.priority_value (some (pstr "C")) = .ok (.pystr (pstr "L")) ∧
    LogseqIssue.priority_value (some p) = .error .keyError := by
  refine ⟨?_, rfl, by decide, by decide, by decide, ?_⟩
  · unfold TracIssue.get_priority
    cases record.priority with
    | none => tauto
    | some q =>
      cases hq : alookup q TracIssue.PRIORITY_MAP with
      | none => simp [hq]
      | some v =>
        have : v = pstr "L" ∨ v = pstr "M" ∨ v = pstr "H" := by
          simp only [TracIssue.PRIORITY_MAP, alookup] at hq
          split_ifs at hq <;> simp_all
        rcases this with h | h | h <;> simp [hq, h]
  · have hnone : alookup p LogseqIssue.PRIORITY_MAP = none := by
      simp [LogseqIssue.PRIORITY_MAP, alookup, Ne.symm hp, Ne.symm hp2, Ne.symm hp3]
    simp [LogseqIssue.priority_value, hnone]

/-- Witness for C1 (amended) at the unmapped priority string "D". -/
theorem C1_priority_amended_witness :
    LogseqIssue.priority_value (some (pstr "D")) = .error .keyError :=
  (C1_priority_amended {} (pstr "M") (pstr "D")
    (by decide) (by decide) (by decide)).2.2.2.2.2

/-- C10: `GithubService.body` never raises: a null body passes through as
null, and a truthy string body yields the body with every CRLF replaced
(left to right) by LF and then truncated, a result of length at most the
configured body_length (an empty body is returned unchanged and also
satisfies the bound). -/
theorem C10_github_body (body_length : Nat) (issue : GhRecord) (s : Str) :
    (issue.body = none → GithubService.body body_length issue = none) ∧
    (issue.body = some s → s ≠ [] →
      GithubService.body body_length issue =
        some ((replaceSub (pstr "\r\n") (pstr "\n") s).take body_length)) ∧
    (issue.body = some s →
      ∃ t, GithubService.body body_length issue = some t ∧
        t.length ≤ body_length) := by
  refine ⟨fun h => by simp [GithubService.body, h], ?_, ?_⟩
  · intro h hs
    simp [GithubService.body, h, hs]
  · intro h
    by_cases hs : s = []
    · subst hs
      exact ⟨[], by simp [GithubService.body, h], Nat.zero_le _⟩
    · refine ⟨(replaceSub (pstr "\r\n") (pstr "\n") s).take body_length,
        by simp [GithubService.body, h, hs], ?_⟩
      exact List.length_take_le body_length _

/-- Witness for C10 with body "a\r\nbcd" and body_length 3. -/
theorem C10_github_body_witness :
    GithubService.body 3 { body := some (pstr "a\r\nbcd") } =
      some ((replaceSub (pstr "\r\n") (pstr "\n") (pstr "a\r\nbcd")).take 3) :=
  (C10_github_body 3 { body := some (pstr "a\r\nbcd") } (pstr "a\r\nbcd")).2.1
    rfl (by decide)

/-- C4: normalizing a GitHub issue record whose milestone key is present and
null does not raise: `GithubIssue.to_taskwarrior` returns the full mapping
with a null `githubmilestone` and every other field populated as for any
other record. -/
theorem C4_github_milestone_null (parse_date : Option Str → Option PyDateTime)
    (default_priority : Str) (import_labels_as_tags : Bool) (render : Str → Str)
    (record : GhRecord) (extra : GhExtra) (rp : Str)
    (hm : record.milestone = some none) (hr : record.repo = some rp) :
    GithubIssue.to_taskwarrior parse_date default_priority import_labels_as_tags
        render record extra =
      .ok [("project", .pystr extra.project),
           ("priority", .pystr default_priority),
           ("annotations", .pystrList (extra.annotations.getD [])),
           ("tags", .pystrList
             (GithubIssue.get_tags import_labels_as_tags render record)),
           ("entry", Value.ofOptDate (parse_date record.created_at)),
           ("end", Value.ofOptDate (parse_date record.closed_at)),
           ("githuburl", .pystr record.html_url),
           ("githubrepo", .pystr rp),
           ("githubtype", .pystr extra.type),
           ("githubuser", .pystr record.user_login),
           ("githubtitle", .pystr record.title),
           ("githubbody",
             match extra.body with | none => Value.pynone | some b => .pystr b),
           ("githubmilestone", Value.pynone),
           ("githubnumber", .pyint record.number),
           ("githubcreatedon", Value.ofOptDate (parse_date record.created_at)),
           ("githubupdatedat", Value.ofOptDate (parse_date record.updated_at)),
           ("githubclosedon", Value.ofOptDate (parse_date record.closed_at)),
           ("githubnamespace", .pystr extra.nmspace),
           ("githubstate", .pystr (record.state.getD [])),
           ("githubdraft", .pyint (if record.draft.getD false then 1 else 0))] := by
  unfold GithubIssue.to_taskwarrior
  rw [hm, hr]
  rfl

/-- Witness for C4 at a concrete record with a present-but-null milestone. -/
theorem C4_github_milestone_null_witness :
    GithubIssue.to_taskwarrior (fun _ => none) (pstr "M") false (fun t => t)
      { html_url := pstr "http://g/o/r/issues/1", milestone := some none,
        repo := some (pstr "o/r") } {} =
      .ok [("project", .pystr []),
           ("priority", .pystr (pstr "M")),
           ("annotations", .pystrList []),
           ("tags", .pystrList []),
           ("entry", .pynone),
           ("end", .pynone),
           ("githuburl", .pystr (pstr "http://g/o/r/issues/1")),
           ("githubrepo", .pystr (pstr "o/r")),
           ("githubtype", .pystr []),
           ("githubuser", .pystr []),
           ("githubtitle", .pystr []),
           ("githubbody", .pynone),
           ("githubmilestone", .pynone),
           ("githubnumber", .pyint 0),
           ("githubcreatedon", .pynone),
           ("githubupdatedat", .pynone),
           ("githubclosedon", .pynone),
           ("githubnamespace", .pystr []),
           ("githubstate", .pystr []),
           ("githubdraft", .pyint 0)] :=
  C4_github_milestone_null (fun _ => none) (pstr "M") false (fun t => t)
    { html_url := pstr "http://g/o/r/issues/1", milestone := some none,
      repo := some (pstr "o/r") } {} (pstr "o/r") rfl rfl

/-- C6: normalization copies unique-key values through verbatim when the
identity fields are present: Trac's `tracurl` equals `record['url']`,
GitHub's `githuburl` equals `record['html_url']` and `githubtype` equals
`extra['type']`, and Bitbucket's `bitbucketurl` equals `extra['url']`. -/
theorem C6_unique_key_passthrough
    (tr : TracRecord) (te : TracExtra) (tdp : Str)
    (turl ts tc : Str) (tn : Int)
    (h1 : tr.url = some turl) (h2 : tr.summary = some ts)
    (h3 : tr.component = some tc) (h4 : tr.number = some tn)
    (pd : Option Str → Option PyDateTime) (gdp : Str) (gimp : Bool)
    (grender : Str → Str) (grc : GhRecord) (ge : GhExtra)
    (grp : Str) (gm : Option Str)
    (h5 : grc.milestone = some gm) (h6 : grc.repo = some grp)
    (br : BitbucketRecord) (be : BitbucketExtra) (bdp : Str) :
    (∃ flds, TracIssue.to_taskwarrior tr te tdp = .ok flds ∧
      alookup "tracurl" flds = some (.pystr turl)) ∧
    (∃ flds, GithubIssue.to_taskwarrior pd gdp gimp grender grc ge = .ok flds ∧
      alookup "githuburl" flds = some (.pystr grc.html_url) ∧
      alookup "githubtype" flds = some (.pystr ge.type)) ∧
    alookup "bitbucketurl" (BitbucketIssue.to_taskwarrior br be bdp) =
      some (.pystr be.url) := by
  refine ⟨?_, ?_, rfl⟩
  · unfold TracIssue.to_taskwarrior
    rw [h1, h2, h3, h4]
    exact ⟨_, rfl, rfl⟩
  · unfold GithubIssue.to_taskwarrior
    rw [h5, h6]
    cases gm with
    | none => exact ⟨_, rfl, rfl, rfl⟩
    | some t => exact ⟨_, rfl, rfl, rfl⟩

/-- Witness for C6 at concrete records with the identity fields present. -/
theorem C6_unique_key_passthrough_witness :
    ∃ flds,
      TracIssue.to_taskwarrior
        { url := some (pstr "http://x/t/1"), summary := some (pstr "s"),
          component := some (pstr "c"), number := some 1 }
        { project := pstr "p", annotations := [] } (pstr "M") = .ok flds ∧
      alookup "tracurl" flds = some (.pystr (pstr "http://x/t/1")) :=
  (C6_unique_key_passthrough
    { url := some (pstr "http://x/t/1"), summary := some (pstr "s"),
      component := some (pstr "c"), number := some 1 }
    { project := pstr "p", annotations := [] } (pstr "M")
    (pstr "http://x/t/1") (pstr "s") (pstr "c") 1 rfl rfl rfl rfl
    (fun _ => none) (pstr "M") false (fun t => t)
    { milestone := some none, repo := some (pstr "o/r") } {}
    (pstr "o/r") none rfl rfl
    { id := 1, title := [] }
    { project := [], url := [], annotations := [] } (pstr "M")).1

/-- C9: tag extraction is deterministic and order-stable: it depends only on
the record's labels (GitHub) or content (Logseq), so equal inputs give equal
tag lists; the GitHub list is the configured template rendered over the
labels in record order; and the Logseq tags appear in content order (their
concatenation is a subsequence of the formatted title). -/
theorem C9_tag_extraction_stable (imp : Bool) (render : Str → Str)
    (r1 r2 : GhRecord) (cfg : LogseqConfig) (s1 s2 : LogseqRecord)
    (hg : r1.labels = r2.labels) (hl : s1.content = s2.content) :
    GithubIssue.get_tags imp render r1 = GithubIssue.get_tags imp render r2 ∧
    (imp = true →
      GithubIssue.get_tags imp render r1 =
        ((r1.labels.getD []).map GhLabel.name).map render) ∧
    LogseqIssue.get_tags_from_content cfg s1 =
      LogseqIssue.get_tags_from_content cfg s2 ∧
    (LogseqIssue.get_tags_from_content cfg s1).flatten.Sublist
      (LogseqIssue.get_formated_title cfg s1) := by
  refine ⟨?_, ?_, ?_, ?_⟩
  · simp [GithubIssue.get_tags, hg]
  · intro h
    subst h
    simp [GithubIssue.get_tags, get_tags_from_labels, foldl_append_eq_map]
  · simp [LogseqIssue.get_tags_from_content, LogseqIssue.get_formated_title,
      LogseqIssue.unescape_content, hl]
  · simpa using findTagsAux_flatten_sublist cfg.char_open_link
      (LogseqIssue.get_formated_title cfg s1) none

/-- Witness for C9 at a concrete record pair. -/
theorem C9_tag_extraction_stable_witness :
    (LogseqIssue.get_tags_from_content {}
      { id := 1, uuid := [], marker := pstr "TODO",
        content := pstr "TODO a #t1 #t2" }).flatten.Sublist
      (LogseqIssue.get_formated_title {}
        { id := 1, uuid := [], marker := pstr "TODO",
          content := pstr "TODO a #t1 #t2" }) :=
  (C9_tag_extraction_stable true (fun t => t) {} {} {}
    { id := 1, uuid := [], marker := pstr "TODO",
      content := pstr "TODO a #t1 #t2" }
    { id := 1, uuid := [], marker := pstr "TODO",
      content := pstr "TODO a #t1 #t2" } rfl rfl).2.2.2

/-- C8 counterexample: a SCHEDULED line with a trailing space inside the
angle brackets makes `LogseqIssue.get_scheduled_date` raise `IndexError`
(`date_split[2][0]` on an empty third piece) instead of logging a warning
and returning a null date. -/
theorem C8_scheduled_date_counterexample :
    LogseqIssue.get_scheduled_date (pstr "SCHEDULED: <2024-06-20 Thu >") =
      .error .indexError := by decide

/-- C8 (amended): the accepted formats are date-with-day-name, optionally
with a time and/or a repeat marker (four shapes); a bare date, or any piece
count other than 2, 3 or 4, yields a null date rather than a parse; in the
two-piece shape the result is exactly the strptime result, null on an
unparseable date; and the only raising input is a three-piece split whose
third piece is empty, which raises `IndexError` (so normalization aborts
for such lines, and completes otherwise). -/
theorem C8_scheduled_date_amended :
    (LogseqIssue.get_scheduled_date (pstr "SCHEDULED: <2024-06-20 Thu>") =
      .ok (some ⟨2024, 6, 20, 0, 0⟩)) ∧
    (LogseqIssue.get_scheduled_date (pstr "DEADLINE: <2024-06-20 Thu 10:55>") =
      .ok (some ⟨2024, 6, 20, 10, 55⟩)) ∧
    (LogseqIssue.get_scheduled_date (pstr "SCHEDULED: <2024-06-20 Thu .+1d>") =
      .ok (some ⟨2024, 6, 20, 0, 0⟩)) ∧
    (LogseqIssue.get_scheduled_date (pstr "SCHEDULED: <2024-06-20 Thu 10:55 .+1d>") =
      .ok (some ⟨2024, 6, 20, 10, 55⟩)) ∧
    (LogseqIssue.get_scheduled_date (pstr "SCHEDULED: <2024-06-20>") = .ok none) ∧
    (LogseqIssue.get_scheduled_date (pstr "SCHEDULED: <2024-13-40 Thu>") = .ok none) ∧
    (∀ s d x, LogseqIssue.date_split s = [d, x] →
      LogseqIssue.get_scheduled_date s = .ok (strptimeYMD d)) ∧
    (∀ s, (LogseqIssue.date_split s).length ≠ 2 →
      (LogseqIssue.date_split s).length ≠ 3 →
      (LogseqIssue.date_split s).length ≠ 4 →
      LogseqIssue.get_scheduled_date s = .ok none) ∧
    (∀ s e, LogseqIssue.get_scheduled_date s = .error e →
      e = .indexError ∧ ∃ d x, LogseqIssue.date_split s = [d, x, []]) := by
  refine ⟨by decide, by decide, by decide, by decide, by decide, by decide,
    ?_, ?_, ?_⟩
  · intro s d x h
    unfold LogseqIssue.get_scheduled_date
    rw [h]
  · intro s h2 h3 h4
    unfold LogseqIssue.get_scheduled_date
    cases hds : LogseqIssue.date_split s with
    | nil => rfl
    | cons d l1 =>
      cases l1 with
      | nil => rfl
      | cons x l2 =>
        cases l2 with
        | nil => rw [hds] at h2; simp at h2
        | cons t l3 =>
          cases l3 with
          | nil => rw [hds] at h3; simp at h3
          | cons q l4 =>
            cases l4 with
            | nil => rw [hds] at h4; simp at h4
            | cons r l5 => rfl
  · intro s e h
    unfold LogseqIssue.get_scheduled_date at h
    cases hds : LogseqIssue.date_split s with
    | nil => rw [hds] at h; simp at h
    | cons d l1 =>
      cases l1 with
      | nil => rw [hds] at h; simp at h
      | cons x l2 =>
        cases l2 with
        | nil => rw [hds] at h; simp at h
        | cons t l3 =>
          cases l3 with
          | nil =>
            rw [hds] at h
            cases t with
            | nil =>
              have h' : (Except.error PyErr.indexError :
                  Except PyErr (Option PyDateTime)) = Except.error e := h
              exact ⟨(Except.error.inj h').symm, d, x, rfl⟩
            | cons rc ts =>
              have h' : (if rc = '+' ∨ rc = '.' then
                    Except.ok (strptimeYMD d)
                  else Except.ok (strptimeYMDHM (d ++ ' ' :: (rc :: ts)))) =
                  Except.error e := h
              split_ifs at h'
          | cons q l4 =>
            cases l4 with
            | nil => rw [hds] at h; simp at h
            | cons r l5 => rw [hds] at h; simp at h

/-- Witness for C8 (amended) at a five-piece scheduled line. -/
theorem C8_scheduled_date_amended_witness :
    LogseqIssue.get_scheduled_date (pstr "SCHEDULED: <a b c d e>") = .ok none :=
  C8_scheduled_date_amended.2.2.2.2.2.2.2.1 (pstr "SCHEDULED: <a b c d e>")
    (by decide) (by decide) (by decide)

/-- The record used to exhibit C2's missing cross-path dedup: the same GitHub
issue carries distinct `html_url` (web) and `url` (API) values, as real
GitHub records do. -/
def c2_record : GhRecord :=
  { html_url := pstr "http://g/me/proj/issues/1",
    url := pstr "http://a/repos/me/proj/issues/1",
    repository_url := some (pstr "http://a/repos/me/proj") }

/-- C2 counterexample: one record fetched both by the involvement query and
by the owned-repo path yields TWO entries in the collection built by
`GithubService.issues` — the query path keyed it by `html_url`, the
owned-repo path by the API `url` — so the same identity (html_url) appears
twice and no identity-level last-write-wins overwrite happens. -/
theorem C2_github_dedup_counterexample :
    GithubService.issuesDict
      { username := pstr "me", involved_issues := true,
        include_repos := [pstr "proj"], include_user_issues := false }
      { involved_result := [c2_record],
        repo_issues := fun t => if t = pstr "me/proj" then [c2_record] else [] } =
    .ok [(c2_record.html_url, (pstr "me/proj", c2_record)),
         (c2_record.url, (pstr "me/proj", c2_record))] ∧
    c2_record.html_url ≠ c2_record.url :=
  ⟨by decide, by decide⟩

/-- C2 (amended): within one `GithubService.issues` run deduplication is per
dictionary key, not per issue identity: the query paths key by `html_url`
while the owned-repo and directly-assigned paths key by the API `url` (and
the by-URL path by the configured path), so an issue reached by an
involvement query and by the owned-repo path stays duplicated unless its
`html_url` equals its `url`; per key the final collection has exactly one
entry, and a key also produced by the later-executed directly-assigned path
takes that later path's value (dict-update last-write-wins). -/
theorem C2_github_dedup_amended (cfg : GhConfig) (data : GhFetchData)
    (u : GhDict) (h1 : cfg.include_user_issues = true)
    (h2 : cfg.issue_urls = []) (h3 : ghAssignedKept cfg data = .ok u) :
    GithubService.issuesDict cfg data = .ok (dictUpdate (ghStage2 cfg data) u) ∧
    (∀ k, alookup k (dictUpdate (ghStage2 cfg data) u) =
      orLookup (alookupLast k u) (alookup k (ghStage2 cfg data))) ∧
    ((dictUpdate (ghStage2 cfg data) u).map Prod.fst).Nodup := by
  refine ⟨?_, fun k => alookup_dictUpdate k _ u,
    dictUpdate_keys_nodup _ (ghStage2_keys_nodup cfg data)⟩
  unfold GithubService.issuesDict ghStage3
  rw [h2]
  simp [h1, h3]

/-- The directly-assigned fetch used by the C2 (amended) witness. -/
def c2w_record : GhRecord :=
  { html_url := pstr "http://g/o/r/issues/1",
    url := pstr "http://a/repos/o/r/issues/1",
    repository_url := some (pstr "http://a/repos/o/r") }

/-- Configuration for the C2 (amended) witness: only the directly-assigned
path runs. -/
def c2w_cfg : GhConfig :=
  { username := pstr "me", include_user_repos := false }

/-- Fetch data for the C2 (amended) witness. -/
def c2w_data : GhFetchData := { directly_assigned := [c2w_record] }

/-- Witness for C2 (amended): the directly-assigned stage succeeds and the
final dictionary is the dict-update of the earlier stages with it. -/
theorem C2_github_dedup_amended_witness :
    GithubService.issuesDict c2w_cfg c2w_data =
      .ok (dictUpdate (ghStage2 c2w_cfg c2w_data)
        [(c2w_record.url, (pstr "o/r", c2w_record))]) :=
  (C2_github_dedup_amended c2w_cfg c2w_data
    [(c2w_record.url, (pstr "o/r", c2w_record))] rfl rfl (by decide)).1

end Bugwarrior

